import Mathlib

set_option maxHeartbeats 1000000

namespace RiceQuality

/-! Shallow embedding of the Rice Quality Analyzer application (src/app.py).

External effects are made explicit:
- PIL image decoding outcomes and the remote model call outcomes are
  parameters of the functions that perform them;
- messages shown via st.error are collected in output lists;
- Streamlit session state is passed explicitly;
- st.stop is an Except-style early exit.
-/

/-! Base64: models Python's base64.b64encode / base64.b64decode over byte
lists (each byte a Nat below 256), standard alphabet with '=' padding. -/

def b64Alphabet : List Char :=
  ['A','B','C','D','E','F','G','H','I','J','K','L','M',
   'N','O','P','Q','R','S','T','U','V','W','X','Y','Z',
   'a','b','c','d','e','f','g','h','i','j','k','l','m',
   'n','o','p','q','r','s','t','u','v','w','x','y','z',
   '0','1','2','3','4','5','6','7','8','9','+','/']

def valToChar (v : Nat) : Char := b64Alphabet.getD v '?'

def charToVal (c : Char) : Option Nat :=
  if c ∈ b64Alphabet then some (b64Alphabet.indexOf c) else none

/-- Encode a byte list three bytes at a time, padding the final group. -/
def b64EncodeChunks : List Nat → List Char
  | [] => []
  | [a] =>
      [valToChar (a / 4), valToChar (a % 4 * 16), '=', '=']
  | [a, b] =>
      [valToChar (a / 4), valToChar (a % 4 * 16 + b / 16),
       valToChar (b % 16 * 4), '=']
  | a :: b :: c :: rest =>
      valToChar (a / 4) :: valToChar (a % 4 * 16 + b / 16) ::
      valToChar (b % 16 * 4 + c / 64) :: valToChar (c % 64) ::
      b64EncodeChunks rest

/-- Decode a base64 character list four characters at a time, accepting
'=' padding only at the very end. -/
def b64DecodeChunks : List Char → Option (List Nat)
  | [] => some []
  | cw :: cx :: cy :: cz :: rest =>
      (charToVal cw).bind fun vw =>
      (charToVal cx).bind fun vx =>
      if cy = '=' then
        if cz = '=' ∧ rest = [] then some [vw * 4 + vx / 16] else none
      else
        (charToVal cy).bind fun vy =>
        if cz = '=' then
          if rest = [] then
            some [vw * 4 + vx / 16, vx % 16 * 16 + vy / 4]
          else none
        else
          (charToVal cz).bind fun vz =>
          (b64DecodeChunks rest).bind fun tail =>
          some ((vw * 4 + vx / 16) :: (vx % 16 * 16 + vy / 4) ::
                (vy % 4 * 64 + vz) :: tail)
  | _ => none

theorem charToVal_valToChar : ∀ v < 64, charToVal (valToChar v) = some v := by
  decide

theorem valToChar_ne_pad : ∀ v < 64, valToChar v ≠ '=' := by
  decide

theorem b64_roundtrip (bs : List Nat) (h : ∀ b ∈ bs, b < 256) :
    b64DecodeChunks (b64EncodeChunks bs) = some bs := by
  induction bs using b64EncodeChunks.induct with
  | case1 => rfl
  | case2 a =>
      have ha : a < 256 := h a (by simp)
      rw [b64EncodeChunks, b64DecodeChunks,
          charToVal_valToChar (a / 4) (by omega),
          charToVal_valToChar (a % 4 * 16) (by omega)]
      simp
      omega
  | case3 a b =>
      have ha : a < 256 := h a (by simp)
      have hb : b < 256 := h b (by simp)
      rw [b64EncodeChunks, b64DecodeChunks,
          charToVal_valToChar (a / 4) (by omega),
          charToVal_valToChar (a % 4 * 16 + b / 16) (by omega)]
      simp only [Option.some_bind]
      rw [if_neg (valToChar_ne_pad (b % 16 * 4) (by omega)),
          charToVal_valToChar (b % 16 * 4) (by omega)]
      simp
      constructor <;> omega
  | case4 a b c rest ih =>
      have ha : a < 256 := h a (by simp)
      have hb : b < 256 := h b (by simp)
      have hc : c < 256 := h c (by simp)
      have hrest : ∀ x ∈ rest, x < 256 := by
        intro x hx; exact h x (by simp [hx])
      rw [b64EncodeChunks, b64DecodeChunks,
          charToVal_valToChar (a / 4) (by omega),
          charToVal_valToChar (a % 4 * 16 + b / 16) (by omega)]
      simp only [Option.some_bind]
      rw [if_neg (valToChar_ne_pad (b % 16 * 4 + c / 64) (by omega)),
          charToVal_valToChar (b % 16 * 4 + c / 64) (by omega)]
      simp only [Option.some_bind]
      rw [if_neg (valToChar_ne_pad (c % 64) (by omega)),
          charToVal_valToChar (c % 64) (by omega),
          ih hrest]
      simp
      refine ⟨by omega, by omega, by omega⟩

/-! Application data model. External effects are explicit parameters and
outputs: PIL decode outcomes, remote API outcomes, st.error messages. -/

/-- ALLOWED_FILE_TYPES from src/app.py. -/
def ALLOWED_FILE_TYPES : List String := ["png", "jpg", "jpeg"]

/-- An image as PIL holds it after Image.open: the bytes obtained by
re-saving it in its own format, and that declared format (e.g. "PNG"). -/
structure ImageFile where
  bytes : List Nat
  format : String
deriving DecidableEq

/-- Outcome of Image.open plus save on the uploaded file: the image, or
the message of the exception PIL raised. -/
inductive DecodeOutcome
  | ok (img : ImageFile)
  | err (msg : String)
deriving DecidableEq

/-- Outcome of the external chat-completion call: the returned message
content, or the message of the exception raised by transport or API. -/
inductive ApiOutcome
  | success (content : String)
  | failure (msg : String)
deriving DecidableEq

/-- A Python computation that may abort with an uncaught AttributeError
(from dereferencing None). -/
inductive PyResult (α : Type)
  | ok (a : α)
  | attrError
deriving DecidableEq

/-- Python str.lower on ASCII format names such as "PNG" and "JPEG". -/
def str_lower (s : String) : String :=
  String.mk (s.data.map fun c =>
    if 65 ≤ c.toNat ∧ c.toNat ≤ 90 then Char.ofNat (c.toNat + 32) else c)

/-- process_image_data: convert the image to a base64-encoded string; on
any exception show the error via st.error and return (None, None).
Result: ((payload, format), st.error messages shown). -/
def process_image_data (dec : DecodeOutcome) :
    (Option String × Option String) × List String :=
  match dec with
  | .ok img =>
      ((some (String.mk (b64EncodeChunks img.bytes)), some img.format), [])
  | .err e =>
      ((none, none), ["Image processing error: " ++ e])

/-! PDF generation (reportlab flowables modelled structurally). -/

inductive Flowable
  | paragraph (text : String) (style : String)
  | spacer (width height : Nat)
deriving DecidableEq

structure PdfDoc where
  pagesize : String
  story : List Flowable
deriving DecidableEq

/-- Python str.replace restricted to a one-character needle, as used on
the report text (replacing each newline with a break tag). -/
def replaceChar (oldc : Char) (new : List Char) : List Char → List Char
  | [] => []
  | c :: cs =>
      if c = oldc then new ++ replaceChar oldc new cs
      else c :: replaceChar oldc new cs

/-- The break element the newline is replaced with. -/
def brTag : List Char := ['<', 'b', 'r', '/', '>']

/-- generate_pdf_report: a letter-sized document whose story is the fixed
bold title, a spacer, and the report text with newlines replaced by
break elements. -/
def generate_pdf_report (report_text : String) : PdfDoc :=
  { pagesize := "letter"
    story :=
      [ .paragraph "<b>Rice Quality Report</b>" "Title",
        .spacer 1 12,
        .paragraph (String.mk (replaceChar '\n' brTag report_text.data))
          "BodyText" ] }

/-- generate_pdf_report as it runs inside the app: it reads and writes no
session state, so its stateful embedding returns the state untouched. -/
def generate_pdf_report_run (report_text : String) (s : List (String × String)) :
    PdfDoc × List (String × String) :=
  (generate_pdf_report report_text, s)

/-- Lines of a character list, split at newline characters (spec-side
description used to characterise the replacement). -/
def splitLines : List Char → List (List Char)
  | [] => [[]]
  | c :: cs =>
      if c = '\n' then [] :: splitLines cs
      else
        match splitLines cs with
        | [] => [[c]]
        | l :: ls => (c :: l) :: ls

/-- Concatenation of pieces with a separator between neighbours. -/
def joinSep (sep : List Char) : List (List Char) → List Char
  | [] => []
  | [l] => l
  | l :: ls => l ++ sep ++ joinSep sep ls

theorem splitLines_ne_nil (cs : List Char) : splitLines cs ≠ [] := by
  induction cs with
  | nil => simp [splitLines]
  | cons c cs ih =>
      by_cases h : c = '\n'
      · simp [splitLines, h]
      · simp only [splitLines, if_neg h]
        cases hs : splitLines cs with
        | nil => simp
        | cons l ls => simp

theorem replaceChar_newline_joinSep (cs : List Char) :
    replaceChar '\n' brTag cs = joinSep brTag (splitLines cs) := by
  induction cs with
  | nil => rfl
  | cons c cs ih =>
      by_cases h : c = '\n'
      · subst h
        rw [replaceChar, if_pos rfl, splitLines, if_pos rfl, ih]
        cases hs : splitLines cs with
        | nil => exact absurd hs (splitLines_ne_nil cs)
        | cons l ls => simp [joinSep]
      · rw [replaceChar, if_neg h, splitLines, if_neg h, ih]
        cases hs : splitLines cs with
        | nil => exact absurd hs (splitLines_ne_nil cs)
        | cons l ls =>
            cases ls with
            | nil => simp [joinSep]
            | cons l2 ls2 => simp [joinSep]

theorem splitLines_length (cs : List Char) :
    (splitLines cs).length = cs.count '\n' + 1 := by
  induction cs with
  | nil => simp [splitLines]
  | cons c cs ih =>
      by_cases h : c = '\n'
      · subst h
        simp [splitLines, List.count_cons, ih]
      · simp only [splitLines, if_neg h]
        cases hs : splitLines cs with
        | nil => exact absurd hs (splitLines_ne_nil cs)
        | cons l ls =>
            have := ih
            rw [hs] at this
            simp only [List.length_cons] at this ⊢
            rw [List.count_cons]
            simp [h, this]

/-! Report pipeline. -/

/-- Result of one run of generate_rice_report: the returned value (or an
uncaught AttributeError), the st.error messages shown, and how many
times the external model was invoked. -/
structure ReportRun where
  result : PyResult (Option String)
  messages : List String
  apiCalls : Nat
deriving DecidableEq

/-- generate_rice_report: encode the image; if the payload is falsy
(None, or the empty string) return None; otherwise build the data URL —
lowering the format, an AttributeError if it were None — and invoke the
external model once: its message content on success, or None plus an
st.error message on failure. -/
def generate_rice_report (dec : DecodeOutcome) (api : ApiOutcome) : ReportRun :=
  match process_image_data dec with
  | ((b64?, fmt?), msgs) =>
      match b64? with
      | none => { result := .ok none, messages := msgs, apiCalls := 0 }
      | some b64 =>
          if b64 = "" then { result := .ok none, messages := msgs, apiCalls := 0 }
          else
            match fmt? with
            | none => { result := .attrError, messages := msgs, apiCalls := 0 }
            | some fmt =>
                let _image_url := "data:image/" ++ str_lower fmt ++ ";base64," ++ b64
                match api with
                | .success content =>
                    { result := .ok (some content), messages := msgs, apiCalls := 1 }
                | .failure e =>
                    { result := .ok none,
                      messages := msgs ++ ["API communication error: " ++ e],
                      apiCalls := 1 }

/-! UI shell. Session state has a single key, analysis_result; it may be
absent, or present holding the pipeline output (itself possibly None). -/

structure SessionState where
  analysisResult : Option (Option String)
deriving DecidableEq

/-- Truthiness of st.session_state.get on the analysis_result key: a
stored, non-None, non-empty string. -/
def getTruthyResult (s : SessionState) : Option String :=
  match s.analysisResult with
  | some (some r) => if r = "" then none else some r
  | _ => none

/-- The two observable UI states of the spec's state machine. -/
inductive UIState
  | noResult
  | resultPresent
deriving DecidableEq

def uiStateOf (s : SessionState) : UIState :=
  match getTruthyResult s with
  | some _ => .resultPresent
  | none => .noResult

inductive UIElement
  | pageConfig
  | cssStyles
  | errorMsg (text : String)
  | title (text : String)
  | subheader (text : String)
  | divider
  | markdown (text : String)
  | downloadButton (label fileName mime : String) (doc : PdfDoc)
  | button (label : String)
  | sidebarMarkdown (text : String)
  | fileUploader
  | image
deriving DecidableEq

def isDownloadButton : UIElement → Bool
  | .downloadButton _ _ _ _ => true
  | _ => false

/-- Elements that belong to the visible interface proper, as opposed to
page configuration, style injection, and error messages. -/
def isInterfaceElement : UIElement → Bool
  | .pageConfig => false
  | .cssStyles => false
  | .errorMsg _ => false
  | _ => true

/-- The HTML container display_main_interface wraps the report text in. -/
def reportContainer (r : String) : String :=
  "<div class=\"report-container\"><div class=\"report-text\">" ++ r ++
  "</div></div>"

/-- display_main_interface: the title block; when a truthy analysis
result is stored, the report container and a PDF download built by
generate_pdf_report; then the clear button, which pops the key (and
reruns, ending the script run). -/
def display_main_interface (s : SessionState) (clearClicked : Bool) :
    List UIElement × SessionState :=
  let headerEls : List UIElement :=
    [.title "🌾 Rice Quality Analyzer",
     .subheader "AI-Powered Rice Grain Inspection",
     .divider]
  let resultEls : List UIElement :=
    match getTruthyResult s with
    | some r =>
        [.markdown "### 📋 Analysis Report",
         .markdown (reportContainer r),
         .downloadButton "📄 Download PDF Report" "rice_quality_report.pdf"
           "application/pdf" (generate_pdf_report r)]
    | none => []
  let s' := if clearClicked then { analysisResult := none } else s
  (headerEls ++ resultEls ++ [.button "Clear Analysis 🗑️"], s')

/-- render_sidebar: feature text and the upload control; when a file is
uploaded and the analyze button clicked, run the pipeline and store its
output unconditionally in session state. An uncaught AttributeError from
the pipeline propagates. -/
def render_sidebar (s : SessionState) (uploaded analyzeClicked : Bool)
    (dec : DecodeOutcome) (api : ApiOutcome) :
    PyResult SessionState × List UIElement :=
  let staticEls : List UIElement :=
    [.sidebarMarkdown "### Features",
     .divider,
     .subheader "Upload Rice Image",
     .fileUploader]
  if uploaded then
    if analyzeClicked then
      let run := generate_rice_report dec api
      let els := staticEls ++ [.image] ++ run.messages.map UIElement.errorMsg
      match run.result with
      | .ok report => (.ok { analysisResult := some report }, els)
      | .attrError => (.attrError, els)
    else (.ok s, staticEls ++ [.image])
  else (.ok s, staticEls)

/-! Startup and entrypoint. -/

/-- initialize_api_client of src/app.py (shortened name): read
GROQ_API_KEY from the environment; when falsy (absent or empty), show an
error and st.stop; otherwise return the client, modelled by its key. -/
def init_api_client (envKey : Option String) : Except String String :=
  match envKey with
  | none => .error "API key not found. Please verify .env configuration."
  | some k =>
      if k = "" then .error "API key not found. Please verify .env configuration."
      else .ok k

/-- configure_application: page configuration and CSS injection only. -/
def configure_application : List UIElement := [.pageConfig, .cssStyles]

structure AppRun where
  rendered : List UIElement
  halted : Bool
  finalState : PyResult SessionState
deriving DecidableEq

/-- main: configure, create the API client (st.stop halts the script run
right after the error is shown), then the main interface — whose clear
button reruns immediately after popping the key — then the sidebar. -/
def main (envKey : Option String) (s : SessionState)
    (clearClicked uploaded analyzeClicked : Bool)
    (dec : DecodeOutcome) (api : ApiOutcome) : AppRun :=
  let cfg := configure_application
  match init_api_client envKey with
  | .error msg =>
      { rendered := cfg ++ [.errorMsg msg],
        halted := true,
        finalState := .ok s }
  | .ok _client =>
      let (mainEls, s1) := display_main_interface s clearClicked
      if clearClicked then
        { rendered := cfg ++ mainEls, halted := false, finalState := .ok s1 }
      else
        let (res, sideEls) := render_sidebar s1 uploaded analyzeClicked dec api
        { rendered := cfg ++ mainEls ++ sideEls, halted := false,
          finalState := res }

/-! Helper lemmas shared by the claim theorems. -/

theorem b64EncodeChunks_ne_nil (bs : List Nat) (h : bs ≠ []) :
    b64EncodeChunks bs ≠ [] := by
  match bs with
  | [] => exact absurd rfl h
  | [a] => simp [b64EncodeChunks]
  | [a, b] => simp [b64EncodeChunks]
  | a :: b :: c :: rest => simp [b64EncodeChunks]

theorem payload_ne_empty (bs : List Nat) (h : bs ≠ []) :
    String.mk (b64EncodeChunks bs) ≠ "" := by
  intro he
  exact b64EncodeChunks_ne_nil bs h (congrArg String.data he)

/-- On a decodable image with non-empty bytes the pipeline reaches the
external call and its outcome decides the run. -/
theorem generate_rice_report_ok (img : ImageFile) (api : ApiOutcome)
    (h : img.bytes ≠ []) :
    generate_rice_report (.ok img) api =
      match api with
      | .success content =>
          { result := .ok (some content), messages := [], apiCalls := 1 }
      | .failure e =>
          { result := .ok none,
            messages := ["API communication error: " ++ e], apiCalls := 1 } := by
  have hne := payload_ne_empty img.bytes h
  cases api <;> simp [generate_rice_report, process_image_data, hne]

/-! Claim theorems. -/

/-- C1: when the external model call raises, generate_rice_report shows an
API communication error and returns None; and display_main_interface
renders a PDF download — the only call to generate_pdf_report — only when
a truthy analysis result is stored, so the document-generation path is
never invoked after a failure. -/
theorem c1_api_error_no_pdf (img : ImageFile) (e : String)
    (hbytes : img.bytes ≠ []) (s : SessionState)
    (hres : getTruthyResult s = none) (clearClicked : Bool) :
    (generate_rice_report (.ok img) (.failure e)).result = .ok none ∧
    ("API communication error: " ++ e) ∈
      (generate_rice_report (.ok img) (.failure e)).messages ∧
    (display_main_interface s clearClicked).1.all
      (fun el => !isDownloadButton el) = true := by
  refine ⟨?_, ?_, ?_⟩
  · rw [generate_rice_report_ok img _ hbytes]
  · rw [generate_rice_report_ok img _ hbytes]; simp
  · simp [display_main_interface, hres, isDownloadButton]

theorem c1_api_error_no_pdf_witness :
    (generate_rice_report (.ok ⟨[1, 2, 3], "PNG"⟩) (.failure "boom")).result =
      .ok none ∧
    ("API communication error: " ++ "boom") ∈
      (generate_rice_report (.ok ⟨[1, 2, 3], "PNG"⟩) (.failure "boom")).messages ∧
    (display_main_interface ⟨none⟩ false).1.all
      (fun el => !isDownloadButton el) = true :=
  c1_api_error_no_pdf ⟨[1, 2, 3], "PNG"⟩ "boom" (by simp) ⟨none⟩ rfl false

/-- C2: for every uploaded image the pipeline either returns the model's
textual answer, or reports the error via st.error and returns None — on
image-decode failure and on transport/API failure alike — and the
external model is invoked at most once: no retry, no partial result. -/
theorem c2_pipeline_classification (dec : DecodeOutcome) (api : ApiOutcome)
    (hbytes : ∀ img, dec = .ok img → img.bytes ≠ []) :
    (generate_rice_report dec api).apiCalls ≤ 1 ∧
    (match dec, api with
     | .err e, _ =>
         generate_rice_report dec api =
           { result := .ok none,
             messages := ["Image processing error: " ++ e], apiCalls := 0 }
     | .ok _, .success content =>
         generate_rice_report dec api =
           { result := .ok (some content), messages := [], apiCalls := 1 }
     | .ok _, .failure e =>
         generate_rice_report dec api =
           { result := .ok none,
             messages := ["API communication error: " ++ e], apiCalls := 1 }) := by
  cases dec with
  | err e =>
      cases api <;> simp [generate_rice_report, process_image_data]
  | ok img =>
      have h := generate_rice_report_ok img api (hbytes img rfl)
      cases api <;> rw [h] <;> simp

theorem c2_pipeline_classification_witness :
    (generate_rice_report (.ok ⟨[5], "PNG"⟩) (.success "ok")).apiCalls ≤ 1 ∧
    generate_rice_report (.ok ⟨[5], "PNG"⟩) (.success "ok") =
      { result := .ok (some "ok"), messages := [], apiCalls := 1 } :=
  c2_pipeline_classification (.ok ⟨[5], "PNG"⟩) (.success "ok")
    (fun img hi => by cases hi; simp)

/-- C3: with no credential (or an empty one) in the environment, main
halts right after showing the error: the render is page configuration,
styling and the error message only, with no interface element shown. -/
theorem c3_missing_key_halts (envKey : Option String) (s : SessionState)
    (clearClicked uploaded analyzeClicked : Bool)
    (dec : DecodeOutcome) (api : ApiOutcome)
    (h : envKey = none ∨ envKey = some "") :
    (main envKey s clearClicked uploaded analyzeClicked dec api).halted = true ∧
    (main envKey s clearClicked uploaded analyzeClicked dec api).rendered =
      configure_application ++
        [.errorMsg "API key not found. Please verify .env configuration."] ∧
    (main envKey s clearClicked uploaded analyzeClicked dec api).rendered.all
      (fun el => !isInterfaceElement el) = true := by
  rcases h with h | h <;> subst h <;>
    simp [main, init_api_client, configure_application, isInterfaceElement]

theorem c3_missing_key_halts_witness :
    (main none ⟨none⟩ false false false (.err "x") (.failure "y")).halted = true ∧
    (main none ⟨none⟩ false false false (.err "x") (.failure "y")).rendered =
      configure_application ++
        [.errorMsg "API key not found. Please verify .env configuration."] ∧
    (main none ⟨none⟩ false false false (.err "x") (.failure "y")).rendered.all
      (fun el => !isInterfaceElement el) = true :=
  c3_missing_key_halts none ⟨none⟩ false false false (.err "x") (.failure "y")
    (Or.inl rfl)

/-- C4: the UI is a two-state machine over the stored result: every
session state is observably noResult or resultPresent; a successful
analysis stores the truthy result, moving to resultPresent; and the clear
action pops the key — afterwards the key is absent and the observable
state is noResult, whatever was stored before. -/
theorem c4_two_state_machine (s : SessionState) (img : ImageFile) (r : String)
    (hbytes : img.bytes ≠ []) (hr : r ≠ "") :
    (uiStateOf s = .noResult ∨ uiStateOf s = .resultPresent) ∧
    (render_sidebar s true true (.ok img) (.success r)).1 =
      .ok { analysisResult := some (some r) } ∧
    uiStateOf { analysisResult := some (some r) } = .resultPresent ∧
    (display_main_interface s true).2.analysisResult = none ∧
    uiStateOf (display_main_interface s true).2 = .noResult := by
  refine ⟨?_, ?_, ?_, ?_, ?_⟩
  · cases hu : uiStateOf s
    · exact Or.inl rfl
    · exact Or.inr rfl
  · rw [render_sidebar]
    simp [generate_rice_report_ok img _ hbytes]
  · simp [uiStateOf, getTruthyResult, hr]
  · simp [display_main_interface]
  · simp [display_main_interface, uiStateOf, getTruthyResult]

theorem c4_two_state_machine_witness :
    (uiStateOf ⟨some (some "old")⟩ = .noResult ∨
     uiStateOf ⟨some (some "old")⟩ = .resultPresent) ∧
    (render_sidebar ⟨some (some "old")⟩ true true
        (.ok ⟨[7], "JPEG"⟩) (.success "fresh")).1 =
      .ok { analysisResult := some (some "fresh") } ∧
    uiStateOf { analysisResult := some (some "fresh") } = .resultPresent ∧
    (display_main_interface ⟨some (some "old")⟩ true).2.analysisResult = none ∧
    uiStateOf (display_main_interface ⟨some (some "old")⟩ true).2 = .noResult :=
  c4_two_state_machine ⟨some (some "old")⟩ ⟨[7], "JPEG"⟩ "fresh"
    (by simp) (by simp)

/-- C5: the generated document is letter-sized and its story is the fixed
bold title "Rice Quality Report", a spacer, and the report body in which
each newline becomes a break element: the body equals the newline-split
lines of the input joined with br tags, and there is exactly one more
line than there are newline characters. -/
theorem c5_pdf_title_and_breaks (t : String) :
    (generate_pdf_report t).pagesize = "letter" ∧
    (generate_pdf_report t).story =
      [ .paragraph ("<b>" ++ "Rice Quality Report" ++ "</b>") "Title",
        .spacer 1 12,
        .paragraph (String.mk (joinSep brTag (splitLines t.data)))
          "BodyText" ] ∧
    (splitLines t.data).length = t.data.count '\n' + 1 := by
  refine ⟨rfl, ?_, splitLines_length t.data⟩
  simp [generate_pdf_report, replaceChar_newline_joinSep]

/-- C6: with the external model mocked to return R on a decodable image,
the pipeline returns exactly R, the sidebar stores exactly R, and the
main interface renders the report container holding exactly R. -/
theorem c6_mocked_response_exact (s : SessionState) (img : ImageFile)
    (R : String) (hbytes : img.bytes ≠ []) (hR : R ≠ "") :
    (generate_rice_report (.ok img) (.success R)).result = .ok (some R) ∧
    (render_sidebar s true true (.ok img) (.success R)).1 =
      .ok { analysisResult := some (some R) } ∧
    UIElement.markdown (reportContainer R) ∈
      (display_main_interface { analysisResult := some (some R) } false).1 := by
  refine ⟨?_, ?_, ?_⟩
  · rw [generate_rice_report_ok img _ hbytes]
  · rw [render_sidebar]
    simp [generate_rice_report_ok img _ hbytes]
  · simp [display_main_interface, getTruthyResult, hR]

theorem c6_mocked_response_exact_witness :
    (generate_rice_report (.ok ⟨[9, 9], "PNG"⟩) (.success "Report R")).result =
      .ok (some "Report R") ∧
    (render_sidebar ⟨none⟩ true true (.ok ⟨[9, 9], "PNG"⟩)
        (.success "Report R")).1 =
      .ok { analysisResult := some (some "Report R") } ∧
    UIElement.markdown (reportContainer "Report R") ∈
      (display_main_interface { analysisResult := some (some "Report R") }
        false).1 :=
  c6_mocked_response_exact ⟨none⟩ ⟨[9, 9], "PNG"⟩ "Report R" (by simp) (by simp)

/-- C7: for any image of a supported format, the base64 payload produced
by process_image_data decodes back to exactly the bytes that were
encoded. -/
theorem c7_base64_roundtrip (img : ImageFile)
    (hfmt : str_lower img.format ∈ ALLOWED_FILE_TYPES)
    (hbytes : ∀ b ∈ img.bytes, b < 256) :
    ∃ payload : String,
      (process_image_data (.ok img)).1.1 = some payload ∧
      b64DecodeChunks payload.data = some img.bytes :=
  ⟨String.mk (b64EncodeChunks img.bytes), rfl, b64_roundtrip img.bytes hbytes⟩

theorem c7_base64_roundtrip_witness :
    ∃ payload : String,
      (process_image_data (.ok ⟨[137, 80, 78, 71, 13, 10], "PNG"⟩)).1.1 =
        some payload ∧
      b64DecodeChunks payload.data = some [137, 80, 78, 71, 13, 10] :=
  c7_base64_roundtrip ⟨[137, 80, 78, 71, 13, 10], "PNG"⟩ (by decide) (by decide)

/-- C8: generate_pdf_report is deterministic and stateless: its output
depends only on the report text, and the surrounding state is returned
unchanged. -/
theorem c8_pdf_deterministic_stateless (t : String)
    (s1 s2 : List (String × String)) :
    (generate_pdf_report_run t s1).1 = (generate_pdf_report_run t s2).1 ∧
    (generate_pdf_report_run t s1).2 = s1 :=
  ⟨rfl, rfl⟩

/-- C9: triggering an analysis overwrites the stored result
unconditionally — the sidebar run does not depend on the prior session
state — and a failed analysis stores None: a previously displayed report
is discarded, leaving the observable state at noResult. -/
theorem c9_overwrite_on_failure (s s2 : SessionState) (dec : DecodeOutcome)
    (api : ApiOutcome) (e : String) :
    render_sidebar s true true dec api = render_sidebar s2 true true dec api ∧
    (render_sidebar s true true (.err e) api).1 =
      .ok { analysisResult := some none } ∧
    uiStateOf { analysisResult := some none } = .noResult := by
  refine ⟨rfl, ?_, rfl⟩
  simp [render_sidebar, generate_rice_report, process_image_data]

/-- C10: process_image_data returns both components or neither, and the
pipeline never dereferences None: whenever it proceeds past the falsy
payload check, the format is present, so lowering it cannot raise. -/
theorem c10_no_none_dereference (dec : DecodeOutcome) (api : ApiOutcome) :
    (((process_image_data dec).1.1.isSome ∧ (process_image_data dec).1.2.isSome) ∨
     ((process_image_data dec).1.1 = none ∧ (process_image_data dec).1.2 = none)) ∧
    (generate_rice_report dec api).result ≠ .attrError := by
  cases dec with
  | err e =>
      cases api <;> simp [generate_rice_report, process_image_data]
  | ok img =>
      refine ⟨Or.inl ⟨rfl, rfl⟩, ?_⟩
      by_cases hb : String.mk (b64EncodeChunks img.bytes) = ""
      · simp [generate_rice_report, process_image_data, hb]
      · cases api <;> simp [generate_rice_report, process_image_data, hb]

end RiceQuality
